import Mathlib

/-!
Shallow embedding of the `mongodb` persistence layer of the user-profile
service (package `mongodb`, file modelled from `src/unnamed/part_000`).

The MongoDB backend is modelled as explicit state: three collections held
as lists of records (`customers`, `addresses`, `cards`), a counter from
which `primitive.NewObjectID` draws fresh identifiers, and a fault
schedule.  Every driver call (`ReplaceOne`, `FindOne`, `Find`,
`DeleteMany`, `DeleteOne`, `UpdateOne`, `UpdateMany`) consumes one
operation slot; the fault schedule (a list of Booleans indexed by the
operation counter, `false` beyond its end) says whether that call fails
with a storage error.  A failing call leaves the data unchanged.  This
mirrors the Go code's per-call error returns; `mongo.ErrNoDocuments`
(a `FindOne` on a missing document) is a deterministic `notFound`, not a
fault.
-/

/-- Hex digit check: the characters accepted by Go's `hex.DecodeString`
(used by `primitive.ObjectIDFromHex`). -/
def isHexDigit (c : Char) : Bool :=
  (decide ('0' ≤ c) && decide (c ≤ '9')) ||
  (decide ('a' ≤ c) && decide (c ≤ 'f')) ||
  (decide ('A' ≤ c) && decide (c ≤ 'F'))

/-- `primitive.ObjectID` modelled by its canonical (lowercase) 24-char hex
string, the form `ObjectID.Hex` produces. -/
abbrev ObjectID := String

/-- `primitive.IsValidObjectID`: length 24 and hex-decodable. -/
def isValidObjectID (s : String) : Bool :=
  s.toList.length == 24 && s.toList.all isHexDigit

/-- Canonical form of a valid hex identifier string: decoding the hex and
re-encoding (`ObjectID.Hex`) yields the lowercase form. -/
def canonOID (s : String) : ObjectID := String.mk (s.toList.map Char.toLower)

/-- `primitive.ObjectIDFromHex`: fails unless the string is a well-formed
identifier, otherwise yields the decoded identifier (canonical form). -/
def objectIDFromHex (s : String) : Option ObjectID :=
  if isValidObjectID s then some (canonOID s) else none

/-- `ObjectID.Hex`: the canonical external representation. -/
def hex (oid : ObjectID) : String := oid

/-- Hex digit character for a value below 16 (lowercase, as `Hex` emits). -/
def hexChar (n : Nat) : Char :=
  if n < 10 then Char.ofNat (48 + n) else Char.ofNat (87 + n)

/-- Fixed-width lowercase hex rendering (most significant digit first). -/
def toHexFixed : Nat → Nat → List Char
  | 0, _ => []
  | k + 1, n => toHexFixed k (n / 16) ++ [hexChar (n % 16)]

/-- `primitive.NewObjectID` modelled as drawing the `n`-th fresh
identifier: the canonical 24-char hex rendering of the counter. -/
def genOID (n : Nat) : ObjectID := String.mk (toHexFixed 24 n)

/-- Modelled from the spec (§3): the domain `users.Address` of the
`users` package, which is not under `src/` (only its use sites are):
identifier plus street, city, postal code, country. -/
structure Address where
  ID : String
  Street : String
  City : String
  PostCode : String
  Country : String
deriving Repr, DecidableEq

/-- Modelled from the spec (§3): the domain `users.Card`: identifier plus
long number, expiry, CCV. -/
structure Card where
  ID : String
  LongNum : String
  Expires : String
  CCV : String
deriving Repr, DecidableEq

/-- Modelled from the spec (§3): the domain `users.User`: identifier
(empty until persisted), names, unique username, password, embedded
address and card lists, optional hypermedia links (modelled opaquely). -/
structure User where
  UserID : String
  FirstName : String
  LastName : String
  Username : String
  Password : String
  Addresses : List Address
  Cards : List Card
  Links : List String
deriving Repr, DecidableEq

/-- `mongodb.MongoAddress`: an address record with its native `_id`. -/
structure MongoAddress where
  address : Address
  ID : ObjectID
deriving Repr, DecidableEq

/-- `mongodb.MongoCard`: a card record with its native `_id`. -/
structure MongoCard where
  card : Card
  ID : ObjectID
deriving Repr, DecidableEq

/-- `mongodb.MongoUser`: a customer record: the inline user scalars, the
native `_id`, and the address/card reference-id lists. -/
structure MongoUser where
  user : User
  ID : ObjectID
  AddressIDs : List ObjectID
  CardIDs : List ObjectID
deriving Repr, DecidableEq

/-- `MongoAddress.AddID`: copy the record identifier into the domain
entity's identifier field. -/
def MongoAddress.addID (ma : MongoAddress) : Address :=
  { ma.address with ID := hex ma.ID }

/-- `MongoCard.AddID`. -/
def MongoCard.addID (mc : MongoCard) : Card :=
  { mc.card with ID := hex mc.ID }

/-- Placeholder address entry produced by `AddUserIDs`: bare id only. -/
def placeholderAddress (oid : ObjectID) : Address :=
  { ID := hex oid, Street := "", City := "", PostCode := "", Country := "" }

/-- Placeholder card entry produced by `AddUserIDs`. -/
def placeholderCard (oid : ObjectID) : Card :=
  { ID := hex oid, LongNum := "", Expires := "", CCV := "" }

/-- `MongoUser.AddUserIDs`: append one placeholder entry per reference id
to the user's embedded lists and copy the record id into `UserID`.
(The Go code additionally normalises an empty `Links` slice to `nil`,
which is unobservable in this model.) -/
def MongoUser.addUserIDs (mu : MongoUser) : MongoUser :=
  { mu with user := { mu.user with
      Addresses := mu.user.Addresses ++ mu.AddressIDs.map placeholderAddress,
      Cards := mu.user.Cards ++ mu.CardIDs.map placeholderCard,
      UserID := hex mu.ID } }

/-- Error kinds produced directly by driver calls: `storage i` is the
backend fault injected at operation slot `i`; `duplicateKey` is the
username-uniqueness violation of the `customers` index; `notFound` is
`mongo.ErrNoDocuments`. -/
inductive DbErr where
  | notFound
  | duplicateKey
  | storage (opIdx : Nat)
deriving Repr, DecidableEq

/-- Error kinds surfaced by the repository: `invalidHex` is
`ErrInvalidHexID`, `db e` a driver-call error passed through, and
`attributeErrors` the aggregated error
`fmt.Errorf("attribute errors: %v %v", carderr, addrerr)`. -/
inductive Err where
  | invalidHex
  | db (e : DbErr)
  | attributeErrors (carderr addrerr : Option DbErr)
deriving Repr, DecidableEq

deriving instance DecidableEq for Except

/-- The three collections of the logical database. -/
structure DB where
  customers : List MongoUser
  addresses : List MongoAddress
  cards : List MongoCard
deriving Repr, DecidableEq

/-- Backend state: collections, fresh-identifier counter, operation
counter, and the fault schedule (indexed by operation counter; `false`
past its end). -/
structure St where
  db : DB
  nextOID : Nat
  opIdx : Nat
  faults : List Bool
deriving Repr, DecidableEq

def setCustomers (s : St) (l : List MongoUser) : St :=
  { s with db := { s.db with customers := l } }

def setAddresses (s : St) (l : List MongoAddress) : St :=
  { s with db := { s.db with addresses := l } }

def setCards (s : St) (l : List MongoCard) : St :=
  { s with db := { s.db with cards := l } }

/-- Consume one operation slot. -/
def stepOp (s : St) : St := { s with opIdx := s.opIdx + 1 }

/-- Does the next driver call fault? -/
def faultNow (s : St) : Bool := s.faults.getD s.opIdx false

/-- The storage error produced by a fault at the current slot. -/
def opErr (s : St) : DbErr := DbErr.storage s.opIdx

/-- Replace the first record matching the id, or append (upsert). -/
def upsertById {α : Type} (getId : α → ObjectID) (x : α) : List α → List α
  | [] => [x]
  | y :: ys => if getId y == getId x then x :: ys else y :: upsertById getId x ys

/-- Update the first element satisfying the predicate (Mongo `UpdateOne`). -/
def updateFirst {α : Type} (p : α → Bool) (f : α → α) : List α → List α
  | [] => []
  | y :: ys => if p y then f y :: ys else y :: updateFirst p f ys

/-- `ReplaceOne` upsert on `cards` by `_id`. -/
def cardsReplaceOne (mc : MongoCard) (s : St) : Except DbErr Unit × St :=
  if faultNow s then (Except.error (opErr s), stepOp s)
  else (Except.ok (), setCards (stepOp s) (upsertById MongoCard.ID mc s.db.cards))

/-- `ReplaceOne` upsert on `addresses` by `_id`. -/
def addressesReplaceOne (ma : MongoAddress) (s : St) : Except DbErr Unit × St :=
  if faultNow s then (Except.error (opErr s), stepOp s)
  else (Except.ok (), setAddresses (stepOp s) (upsertById MongoAddress.ID ma s.db.addresses))

/-- Modelled from the spec (§4.2): the persisted form of a customer
record.  The `users` package's bson tags (not under `src/`) do not
serialize the embedded Address/Card lists — only the reference-id lists
are persisted on the customer document. -/
def storedUser (mu : MongoUser) : MongoUser :=
  { mu with user := { mu.user with Addresses := [], Cards := [] } }

/-- `ReplaceOne` upsert on `customers` by `_id`, subject to the unique
index on `username` established by `EnsureIndexes`. -/
def customersReplaceOne (mu : MongoUser) (s : St) : Except DbErr Unit × St :=
  if faultNow s then (Except.error (opErr s), stepOp s)
  else if s.db.customers.any (fun c => c.ID != mu.ID && c.user.Username == mu.user.Username)
    then (Except.error DbErr.duplicateKey, stepOp s)
  else (Except.ok (), setCustomers (stepOp s) (upsertById MongoUser.ID (storedUser mu) s.db.customers))

/-- `FindOne` on `customers` by `_id`; a missing document is
`mongo.ErrNoDocuments` (`notFound`). -/
def customersFindOneById (oid : ObjectID) (s : St) : Except DbErr MongoUser × St :=
  if faultNow s then (Except.error (opErr s), stepOp s)
  else match s.db.customers.find? (fun c => c.ID == oid) with
    | none => (Except.error DbErr.notFound, stepOp s)
    | some mu => (Except.ok mu, stepOp s)

/-- `FindOne` on `addresses` by `_id`. -/
def addressesFindOneById (oid : ObjectID) (s : St) : Except DbErr MongoAddress × St :=
  if faultNow s then (Except.error (opErr s), stepOp s)
  else match s.db.addresses.find? (fun a => a.ID == oid) with
    | none => (Except.error DbErr.notFound, stepOp s)
    | some ma => (Except.ok ma, stepOp s)

/-- `FindOne` on `cards` by `_id`. -/
def cardsFindOneById (oid : ObjectID) (s : St) : Except DbErr MongoCard × St :=
  if faultNow s then (Except.error (opErr s), stepOp s)
  else match s.db.cards.find? (fun c => c.ID == oid) with
    | none => (Except.error DbErr.notFound, stepOp s)
    | some mc => (Except.ok mc, stepOp s)

/-- `Find` with an `$in` filter on `addresses` (the batch fetch of
`GetUserAttributes`, cursor drained by `All`). -/
def addressesFindIn (ids : List ObjectID) (s : St) : Except DbErr (List MongoAddress) × St :=
  if faultNow s then (Except.error (opErr s), stepOp s)
  else (Except.ok (s.db.addresses.filter (fun a => ids.contains a.ID)), stepOp s)

/-- `Find` with an `$in` filter on `cards`. -/
def cardsFindIn (ids : List ObjectID) (s : St) : Except DbErr (List MongoCard) × St :=
  if faultNow s then (Except.error (opErr s), stepOp s)
  else (Except.ok (s.db.cards.filter (fun c => ids.contains c.ID)), stepOp s)

/-- `DeleteMany` with an `$in` filter on `addresses`. -/
def addressesDeleteManyIn (ids : List ObjectID) (s : St) : Except DbErr Unit × St :=
  if faultNow s then (Except.error (opErr s), stepOp s)
  else (Except.ok (), setAddresses (stepOp s) (s.db.addresses.filter (fun a => !ids.contains a.ID)))

/-- `DeleteMany` with an `$in` filter on `cards`. -/
def cardsDeleteManyIn (ids : List ObjectID) (s : St) : Except DbErr Unit × St :=
  if faultNow s then (Except.error (opErr s), stepOp s)
  else (Except.ok (), setCards (stepOp s) (s.db.cards.filter (fun c => !ids.contains c.ID)))

/-- The collection/field name literal for customers. -/
def customersKind : String := "customers"

/-- The collection/field name literal for addresses. -/
def addressesKind : String := "addresses"

/-- The collection/field name literal for cards. -/
def cardsKind : String := "cards"

/-- `$addToSet` of one reference id on one customer record (field chosen
by the Go code's collection-name string). -/
def addToSetAttr (attr : String) (oid : ObjectID) (c : MongoUser) : MongoUser :=
  if attr == "addresses" then
    (if c.AddressIDs.contains oid then c else { c with AddressIDs := c.AddressIDs ++ [oid] })
  else if attr == "cards" then
    (if c.CardIDs.contains oid then c else { c with CardIDs := c.CardIDs ++ [oid] })
  else c

/-- `UpdateOne` on `customers` by `_id` with `$addToSet`; matching no
document is not an error. -/
def customersUpdateOneAddToSet (attr : String) (uid oid : ObjectID) (s : St) : Except DbErr Unit × St :=
  if faultNow s then (Except.error (opErr s), stepOp s)
  else (Except.ok (), setCustomers (stepOp s)
    (updateFirst (fun c => c.ID == uid) (addToSetAttr attr oid) s.db.customers))

/-- `$pull` of one reference id from one customer record (field chosen by
the collection-name string; any other field name touches nothing). -/
def pullAttr (attr : String) (oid : ObjectID) (c : MongoUser) : MongoUser :=
  if attr == "addresses" then { c with AddressIDs := c.AddressIDs.filter (fun x => x != oid) }
  else if attr == "cards" then { c with CardIDs := c.CardIDs.filter (fun x => x != oid) }
  else c

/-- `UpdateMany` on all `customers` with `$pull` on the field named by the
entity string. -/
def customersUpdateManyPull (attr : String) (oid : ObjectID) (s : St) : Except DbErr Unit × St :=
  if faultNow s then (Except.error (opErr s), stepOp s)
  else (Except.ok (), setCustomers (stepOp s) (s.db.customers.map (pullAttr attr oid)))

/-- `DeleteOne` by `_id` on the collection named by the entity string;
matching no document is not an error (`DeletedCount 0`, `err == nil`). -/
def deleteOneIn (entity : String) (oid : ObjectID) (s : St) : Except DbErr Unit × St :=
  if faultNow s then (Except.error (opErr s), stepOp s)
  else if entity == "customers" then
    (Except.ok (), setCustomers (stepOp s) (s.db.customers.eraseP (fun c => c.ID == oid)))
  else if entity == "addresses" then
    (Except.ok (), setAddresses (stepOp s) (s.db.addresses.eraseP (fun a => a.ID == oid)))
  else if entity == "cards" then
    (Except.ok (), setCards (stepOp s) (s.db.cards.eraseP (fun c => c.ID == oid)))
  else (Except.ok (), stepOp s)

namespace Mongo

/-- `Mongo.createCards` (lines 154-169): one `ReplaceOne` upsert per card,
each with a fresh identifier; stops at the first failure, returning the
identifiers created so far.  The third component is the caller's card
slice after the in-place `cs[k].ID = id.Hex()` writes (Go slice
aliasing): successfully created prefix entries carry their new ids. -/
def createCards : List Card → St → Except DbErr Unit × List ObjectID × List Card × St
  | [], s => (Except.ok (), [], [], s)
  | c :: rest, s =>
    let oid := genOID s.nextOID
    let s1 : St := { s with nextOID := s.nextOID + 1 }
    match cardsReplaceOne { card := c, ID := oid } s1 with
    | (Except.error e, s2) => (Except.error e, [], c :: rest, s2)
    | (Except.ok _, s2) =>
      match createCards rest s2 with
      | (r, ids, rest2, s3) => (r, oid :: ids, { c with ID := hex oid } :: rest2, s3)

/-- `Mongo.createAddresses` (lines 172-188), symmetric to `createCards`. -/
def createAddresses : List Address → St → Except DbErr Unit × List ObjectID × List Address × St
  | [], s => (Except.ok (), [], [], s)
  | a :: rest, s =>
    let oid := genOID s.nextOID
    let s1 : St := { s with nextOID := s.nextOID + 1 }
    match addressesReplaceOne { address := a, ID := oid } s1 with
    | (Except.error e, s2) => (Except.error e, [], a :: rest, s2)
    | (Except.ok _, s2) =>
      match createAddresses rest s2 with
      | (r, ids, rest2, s3) => (r, oid :: ids, { a with ID := hex oid } :: rest2, s3)

/-- `Mongo.cleanAttributes` (lines 190-200): best-effort `DeleteMany` of
the created address records, then of the created card records; both
results are discarded (`_, _ =`), so this never produces an error. -/
def cleanAttributes (mu : MongoUser) (s : St) : St :=
  let p1 := addressesDeleteManyIn mu.AddressIDs s
  let p2 := cardsDeleteManyIn mu.CardIDs p1.2
  p2.2

/-- The sub-entity error pair fed into the aggregated error. -/
def errOpt : Except DbErr Unit → Option DbErr
  | Except.ok _ => none
  | Except.error e => some e

/-- The customer record assembled by `CreateUser` before the upsert. -/
def assembleMU (u : User) (muID : ObjectID) (cards2 : List Card)
    (addrs2 : List Address) (aids cids : List ObjectID) : MongoUser :=
  { user := { u with Cards := cards2, Addresses := addrs2 },
    ID := muID, AddressIDs := aids, CardIDs := cids }

/-- `Mongo.CreateUser` (lines 125-152).  The second component of the
result is the caller's `*u` after the call: Go updates the embedded card
and address slices in place during sub-entity creation and assigns
`*u = mu.User` only on the fully successful path. -/
def CreateUser (u : User) (s : St) : Except Err Unit × User × St :=
  let muID := genOID s.nextOID
  let s0 : St := { s with nextOID := s.nextOID + 1 }
  match createCards u.Cards s0 with
  | (rc, cardIDs, cards2, s1) =>
    match createAddresses u.Addresses s1 with
    | (ra, addrIDs, addrs2, s2) =>
      let mu : MongoUser := assembleMU u muID cards2 addrs2 addrIDs cardIDs
      match customersReplaceOne mu s2 with
      | (Except.error e, s3) => (Except.error (Err.db e), mu.user, cleanAttributes mu s3)
      | (Except.ok _, s3) =>
        match rc, ra with
        | Except.ok _, Except.ok _ => (Except.ok (), { mu.user with UserID := hex muID }, s3)
        | _, _ => (Except.error (Err.attributeErrors (errOpt rc) (errOpt ra)), mu.user, s3)

/-- `Mongo.appendAttributeId` (lines 202-214): parse the user id, then
`UpdateOne` with `$addToSet` on the customer record. -/
def appendAttributeId (attr : String) (oid : ObjectID) (userid : String) (s : St) :
    Except Err Unit × St :=
  match objectIDFromHex userid with
  | none => (Except.error Err.invalidHex, s)
  | some uid =>
    match customersUpdateOneAddToSet attr uid oid s with
    | (Except.error e, s1) => (Except.error (Err.db e), s1)
    | (Except.ok _, s1) => (Except.ok (), s1)

/-- `Mongo.GetUser` (lines 244-261): validate the id, `FindOne` on
`customers`, then expand reference ids into placeholder entries. -/
def GetUser (id : String) (s : St) : Except Err User × St :=
  match objectIDFromHex id with
  | none => (Except.error Err.invalidHex, s)
  | some uid =>
    match customersFindOneById uid s with
    | (Except.error e, s1) => (Except.error (Err.db e), s1)
    | (Except.ok mu, s1) => (Except.ok mu.addUserIDs.user, s1)

/-- Resolved address list: `AddID` applied to each fetched record. -/
def resolveAddrList (mas : List MongoAddress) : List Address :=
  mas.map MongoAddress.addID

/-- Resolved card list. -/
def resolveCardList (mcs : List MongoCard) : List Card :=
  mcs.map MongoCard.addID

/-- `Mongo.GetUserAttributes` (lines 287-336): validate every address id
(abort with `ErrInvalidHexID` on the first bad one), batch-fetch the
address records and replace the list when the fetch succeeds (a fetch
error is silently ignored); then the same for cards; return success. -/
def GetUserAttributes (u : User) (s : St) : Except Err Unit × User × St :=
  if !u.Addresses.all (fun a => isValidObjectID a.ID) then (Except.error Err.invalidHex, u, s)
  else
    match addressesFindIn (u.Addresses.map (fun a => canonOID a.ID)) s with
    | (rA, s1) =>
      let u1 := match rA with
        | Except.ok mas => { u with Addresses := resolveAddrList mas }
        | Except.error _ => u
      if !u1.Cards.all (fun c => isValidObjectID c.ID) then (Except.error Err.invalidHex, u1, s1)
      else
        match cardsFindIn (u1.Cards.map (fun c => canonOID c.ID)) s1 with
        | (rC, s2) =>
          let u2 := match rC with
            | Except.ok mcs => { u1 with Cards := resolveCardList mcs }
            | Except.error _ => u1
          (Except.ok (), u2, s2)

/-- `Mongo.GetCard` (lines 338-355). -/
def GetCard (id : String) (s : St) : Except Err Card × St :=
  if !isValidObjectID id then (Except.error Err.invalidHex, s)
  else
    match cardsFindOneById (canonOID id) s with
    | (Except.error e, s1) => (Except.error (Err.db e), s1)
    | (Except.ok mc, s1) => (Except.ok mc.addID, s1)

/-- `Mongo.GetAddress` (lines 411-428). -/
def GetAddress (id : String) (s : St) : Except Err Address × St :=
  if !isValidObjectID id then (Except.error Err.invalidHex, s)
  else
    match addressesFindOneById (canonOID id) s with
    | (Except.error e, s1) => (Except.error (Err.db e), s1)
    | (Except.ok ma, s1) => (Except.ok ma.addID, s1)

/-- `Mongo.CreateCard` (lines 381-408): reject a non-empty malformed
user id before any write; upsert the standalone card record with a fresh
id; when the user id is non-empty, append the reference to that customer;
assign the new id into the caller's card only on success. -/
def CreateCard (ca : Card) (userid : String) (s : St) : Except Err Unit × Card × St :=
  if userid != "" && !isValidObjectID userid then (Except.error Err.invalidHex, ca, s)
  else
    let oid := genOID s.nextOID
    let s0 : St := { s with nextOID := s.nextOID + 1 }
    match cardsReplaceOne { card := ca, ID := oid } s0 with
    | (Except.error e, s1) => (Except.error (Err.db e), ca, s1)
    | (Except.ok _, s1) =>
      if userid != "" then
        match appendAttributeId cardsKind oid userid s1 with
        | (Except.error e, s2) => (Except.error e, ca, s2)
        | (Except.ok _, s2) => (Except.ok (), { ca with ID := hex oid }, s2)
      else (Except.ok (), { ca with ID := hex oid }, s1)

/-- `Mongo.CreateAddress` (lines 456-483), symmetric to `CreateCard`. -/
def CreateAddress (a : Address) (userid : String) (s : St) : Except Err Unit × Address × St :=
  if userid != "" && !isValidObjectID userid then (Except.error Err.invalidHex, a, s)
  else
    let oid := genOID s.nextOID
    let s0 : St := { s with nextOID := s.nextOID + 1 }
    match addressesReplaceOne { address := a, ID := oid } s0 with
    | (Except.error e, s1) => (Except.error (Err.db e), a, s1)
    | (Except.ok _, s1) =>
      if userid != "" then
        match appendAttributeId addressesKind oid userid s1 with
        | (Except.error e, s2) => (Except.error e, a, s2)
        | (Except.ok _, s2) => (Except.ok (), { a with ID := hex oid }, s2)
      else (Except.ok (), { a with ID := hex oid }, s1)

/-- `Mongo.Delete` (lines 486-527): validate the id; for `customers`,
fetch the user, delete every linked address and card record (results
discarded), then `DeleteOne` the customer; for any other entity kind,
`$pull` the reference from every customer (result discarded), then
`DeleteOne` the standalone record. -/
def Delete (entity : String) (id : String) (s : St) : Except Err Unit × St :=
  if !isValidObjectID id then (Except.error Err.invalidHex, s)
  else
    let oid := canonOID id
    if entity == "customers" then
      match GetUser id s with
      | (Except.error e, s1) => (Except.error e, s1)
      | (Except.ok u, s1) =>
        let aids := u.Addresses.filterMap (fun a => objectIDFromHex a.ID)
        let cids := u.Cards.filterMap (fun c => objectIDFromHex c.ID)
        let p1 := addressesDeleteManyIn aids s1
        let p2 := cardsDeleteManyIn cids p1.2
        match deleteOneIn entity oid p2.2 with
        | (Except.error e, s3) => (Except.error (Err.db e), s3)
        | (Except.ok _, s3) => (Except.ok (), s3)
    else
      let p := customersUpdateManyPull entity oid s
      match deleteOneIn entity oid p.2 with
      | (Except.error e, s1) => (Except.error (Err.db e), s1)
      | (Except.ok _, s1) => (Except.ok (), s1)

end Mongo

/-- Canonical identifier: valid hex, fixed under re-encoding. -/
def isCanonOID (oid : ObjectID) : Bool :=
  isValidObjectID oid && canonOID oid == oid

/-- Well-formed store: every record identifier and reference identifier
is canonical (every stored id was produced by `ObjectID.Hex`), and — per
§4.2 — persisted customer documents carry no embedded address/card
entities, only reference-id lists. -/
def WFdb (d : DB) : Bool :=
  d.customers.all (fun c => isCanonOID c.ID && c.AddressIDs.all isCanonOID &&
    c.CardIDs.all isCanonOID && c.user.Addresses.isEmpty && c.user.Cards.isEmpty) &&
  d.addresses.all (fun a => isCanonOID a.ID) &&
  d.cards.all (fun c => isCanonOID c.ID)

/-! Concrete fixtures used by witnesses and counterexamples. -/

def oidA : ObjectID := "aaaaaaaaaaaaaaaaaaaaaaaa"

def oidB : ObjectID := "bbbbbbbbbbbbbbbbbbbbbbbb"

def oidC1 : ObjectID := "cccccccccccccccccccccc01"

def oidC2 : ObjectID := "cccccccccccccccccccccc02"

def oidD : ObjectID := "dddddddddddddddddddddddd"

def emptySt : St := ⟨⟨[], [], []⟩, 0, 0, []⟩

def addrA : MongoAddress := ⟨⟨"", "Main", "City", "PC", "CN"⟩, oidA⟩

def cardB : MongoCard := ⟨⟨"", "4111", "0126", "123"⟩, oidB⟩

def cust1 : MongoUser := ⟨⟨"", "f", "l", "u1", "p", [], [], []⟩, oidC1, [oidA], [oidB]⟩

def cust2 : MongoUser := ⟨⟨"", "g", "m", "u2", "p", [], [], []⟩, oidC2, [oidA], []⟩

def twoUserSt : St := ⟨⟨[cust1, cust2], [addrA], [cardB]⟩, 100, 0, []⟩

def cardX : Card := ⟨"", "5555", "0227", "999"⟩

def userU : User := ⟨"", "f", "l", "u", "p", [], [cardX], []⟩

def upsertFaultSt : St := ⟨⟨[], [], []⟩, 0, 0, [false, true]⟩

def cardFaultSt : St := ⟨⟨[], [], []⟩, 0, 0, [true]⟩

def badCardUser : User := ⟨"", "", "", "u", "p", [⟨oidA, "s", "", "", ""⟩], [⟨"zz", "", "", ""⟩], []⟩

def resolveUser : User :=
  ⟨"", "", "", "u", "p", [⟨oidA, "", "", "", ""⟩, ⟨oidD, "", "", "", ""⟩], [⟨oidB, "", "", ""⟩], []⟩

def bothFaultSt : St := ⟨⟨[cust1, cust2], [addrA], [cardB]⟩, 100, 0, [true, true]⟩

def badAddrUser : User := ⟨"", "", "", "u", "p", [⟨"zz", "", "", "", ""⟩], [], []⟩

/-- The address list produced by attribute resolution: the records in
the store matching the user's requested ids, with ids filled in. -/
def resolvedAddrs (u : User) (d : DB) : List Address :=
  (d.addresses.filter
    (fun ma => (u.Addresses.map (fun a => canonOID a.ID)).contains ma.ID)).map MongoAddress.addID

/-- The card list produced by attribute resolution. -/
def resolvedCards (u : User) (d : DB) : List Card :=
  (d.cards.filter
    (fun mc => (u.Cards.map (fun c => canonOID c.ID)).contains mc.ID)).map MongoCard.addID

def muW : MongoUser := ⟨⟨"", "f", "l", "u", "p", [], [], []⟩, genOID 0, [], []⟩

def s1W : St := ⟨⟨[], [], []⟩, 2, 1, [true]⟩

def s3W : St := ⟨⟨[muW], [], []⟩, 2, 2, [true]⟩

def cardXid : Card := ⟨genOID 1, "5555", "0227", "999"⟩

def mcW : MongoCard := ⟨cardX, genOID 1⟩

def s1C1 : St := ⟨⟨[], [], [mcW]⟩, 2, 1, [false, true]⟩

def s3C1 : St := ⟨⟨[], [], [mcW]⟩, 2, 2, [false, true]⟩

/-! Helper lemmas. -/

theorem faultNow_of_nil {s : St} (h : s.faults = []) : faultNow s = false := by
  simp [faultNow, h]

theorem isCanonOID_valid {oid : ObjectID} (h : isCanonOID oid = true) :
    isValidObjectID oid = true := by
  simp [isCanonOID] at h
  exact h.1

theorem isCanonOID_fix {oid : ObjectID} (h : isCanonOID oid = true) :
    canonOID oid = oid := by
  simp [isCanonOID] at h
  exact h.2

theorem objectIDFromHex_canon {oid : ObjectID} (h : isCanonOID oid = true) :
    objectIDFromHex oid = some oid := by
  simp [objectIDFromHex, isCanonOID_valid h, isCanonOID_fix h]

theorem updateFirst_of_none {α : Type} (p : α → Bool) (f : α → α) :
    ∀ l : List α, (∀ x ∈ l, p x = false) → updateFirst p f l = l
  | [], _ => rfl
  | y :: ys, h => by
    have hy := h y (by simp)
    have hrest := updateFirst_of_none p f ys (fun x hx => h x (by simp [hx]))
    simp [updateFirst, hy, hrest]

theorem find?_filter_deleted {α : Type} (getId : α → ObjectID) (ids : List ObjectID)
    (x : ObjectID) (hx : ids.contains x = true) (l : List α) :
    (l.filter (fun a => !ids.contains (getId a))).find? (fun a => getId a == x) = none := by
  rw [List.find?_eq_none]
  intro a ha
  rw [List.mem_filter] at ha
  intro hbeq
  have he : getId a = x := by simpa using hbeq
  have hc : ids.contains (getId a) = false := by simpa using ha.2
  rw [he, hx] at hc
  exact absurd hc (by simp)

theorem filterMap_placeholderAddress :
    ∀ l : List ObjectID, l.all isCanonOID = true →
      (l.map placeholderAddress).filterMap (fun a => objectIDFromHex a.ID) = l
  | [], _ => rfl
  | oid :: rest, h => by
    rw [List.all_cons, Bool.and_eq_true] at h
    have hrest := filterMap_placeholderAddress rest h.2
    simp [placeholderAddress, hex, objectIDFromHex_canon h.1, hrest]

theorem filterMap_placeholderCard :
    ∀ l : List ObjectID, l.all isCanonOID = true →
      (l.map placeholderCard).filterMap (fun c => objectIDFromHex c.ID) = l
  | [], _ => rfl
  | oid :: rest, h => by
    rw [List.all_cons, Bool.and_eq_true] at h
    have hrest := filterMap_placeholderCard rest h.2
    simp [placeholderCard, hex, objectIDFromHex_canon h.1, hrest]

theorem WF_customer {d : DB} {mu : MongoUser} (hwf : WFdb d = true) (hmem : mu ∈ d.customers) :
    isCanonOID mu.ID = true ∧ mu.AddressIDs.all isCanonOID = true ∧
    mu.CardIDs.all isCanonOID = true ∧ mu.user.Addresses = [] ∧ mu.user.Cards = [] := by
  unfold WFdb at hwf
  rw [Bool.and_eq_true, Bool.and_eq_true] at hwf
  obtain ⟨⟨hcu, _⟩, _⟩ := hwf
  rw [List.all_eq_true] at hcu
  have h := hcu mu hmem
  rw [Bool.and_eq_true, Bool.and_eq_true, Bool.and_eq_true, Bool.and_eq_true] at h
  obtain ⟨⟨⟨⟨ha, hb⟩, hc⟩, hd⟩, he⟩ := h
  exact ⟨ha, hb, hc, by simpa using hd, by simpa using he⟩

/-- C9: every operation that accepts an identifier (getUser, getCard,
getAddress, delete, and createCard/createAddress with a non-empty
userId) rejects a malformed identifier with `InvalidFormat`, before any
store operation: the returned state is the input state, untouched. -/
theorem C9_invalid_id_rejected (id entity userid : String) (s : St) (ca : Card) (a : Address)
    (h : isValidObjectID id = false) (hu : isValidObjectID userid = false) (hne : userid ≠ "") :
    Mongo.GetUser id s = (Except.error Err.invalidHex, s) ∧
    Mongo.GetCard id s = (Except.error Err.invalidHex, s) ∧
    Mongo.GetAddress id s = (Except.error Err.invalidHex, s) ∧
    Mongo.Delete entity id s = (Except.error Err.invalidHex, s) ∧
    Mongo.CreateCard ca userid s = (Except.error Err.invalidHex, ca, s) ∧
    Mongo.CreateAddress a userid s = (Except.error Err.invalidHex, a, s) := by
  refine ⟨?_, ?_, ?_, ?_, ?_, ?_⟩
  · simp [Mongo.GetUser, objectIDFromHex, h]
  · simp [Mongo.GetCard, h]
  · simp [Mongo.GetAddress, h]
  · simp [Mongo.Delete, h]
  · simp [Mongo.CreateCard, h, hu, hne]
  · simp [Mongo.CreateAddress, h, hu, hne]

/-- C9 witness at a concrete malformed identifier. -/
theorem C9_witness :
    isValidObjectID "zz" = false ∧ ("zz" : String) ≠ "" ∧
    (Mongo.GetUser "zz" ⟨⟨[], [], []⟩, 0, 0, []⟩
      = (Except.error Err.invalidHex, ⟨⟨[], [], []⟩, 0, 0, []⟩) ∧
     Mongo.GetCard "zz" ⟨⟨[], [], []⟩, 0, 0, []⟩
      = (Except.error Err.invalidHex, ⟨⟨[], [], []⟩, 0, 0, []⟩) ∧
     Mongo.GetAddress "zz" ⟨⟨[], [], []⟩, 0, 0, []⟩
      = (Except.error Err.invalidHex, ⟨⟨[], [], []⟩, 0, 0, []⟩) ∧
     Mongo.Delete cardsKind "zz" ⟨⟨[], [], []⟩, 0, 0, []⟩
      = (Except.error Err.invalidHex, ⟨⟨[], [], []⟩, 0, 0, []⟩) ∧
     Mongo.CreateCard ⟨"", "", "", ""⟩ "zz" ⟨⟨[], [], []⟩, 0, 0, []⟩
      = (Except.error Err.invalidHex, ⟨"", "", "", ""⟩, ⟨⟨[], [], []⟩, 0, 0, []⟩) ∧
     Mongo.CreateAddress ⟨"", "", "", "", ""⟩ "zz" ⟨⟨[], [], []⟩, 0, 0, []⟩
      = (Except.error Err.invalidHex, ⟨"", "", "", "", ""⟩, ⟨⟨[], [], []⟩, 0, 0, []⟩)) :=
  ⟨by decide, by decide,
   C9_invalid_id_rejected "zz" cardsKind "zz" ⟨⟨[], [], []⟩, 0, 0, []⟩ ⟨"", "", "", ""⟩
     ⟨"", "", "", "", ""⟩ (by decide) (by decide) (by decide)⟩

/-- C5 counterexample: deleting a well-formed address id with no
corresponding record returns success, not `NotFound` (`DeleteOne` with
zero matches is not an error in the official driver). -/
theorem C5_counterexample :
    (Mongo.Delete addressesKind "aaaaaaaaaaaaaaaaaaaaaaaa" ⟨⟨[], [], []⟩, 0, 0, []⟩).1
        = Except.ok () ∧
    (Mongo.Delete addressesKind "aaaaaaaaaaaaaaaaaaaaaaaa" ⟨⟨[], [], []⟩, 0, 0, []⟩).1
        ≠ Except.error (Err.db DbErr.notFound) := by
  constructor
  · rfl
  · decide

/-- C5 amended: for a well-formed id with no corresponding record and a
fault-free backend, delete on `customers` fails with `NotFound` (the
initial user fetch fails), while delete on `addresses` or `cards`
returns success — the broadcast `$pull` and the `DeleteOne` are silent
no-ops. -/
theorem C5_amended_delete_missing (id : String) (s : St)
    (hid : isValidObjectID id = true) (hnf : s.faults = [])
    (habs : s.db.customers.find? (fun c => c.ID == canonOID id) = none) :
    Mongo.Delete customersKind id s = (Except.error (Err.db DbErr.notFound), stepOp s) ∧
    (Mongo.Delete addressesKind id s).1 = Except.ok () ∧
    (Mongo.Delete cardsKind id s).1 = Except.ok () := by
  have h1 : (addressesKind == customersKind) = false := by decide
  have h2 : (cardsKind == customersKind) = false := by decide
  refine ⟨?_, ?_, ?_⟩
  · simp [Mongo.Delete, customersKind, hid, Mongo.GetUser, objectIDFromHex,
      customersFindOneById, faultNow, hnf, habs]
  · simp [Mongo.Delete, customersKind, addressesKind, hid, customersUpdateManyPull,
      deleteOneIn, faultNow, hnf, stepOp, setCustomers, setAddresses, h1]
  · simp [Mongo.Delete, customersKind, cardsKind, hid, customersUpdateManyPull,
      deleteOneIn, faultNow, hnf, stepOp, setCustomers, setCards, h2]

/-- C5 witness: empty fault-free store, concrete well-formed id. -/
theorem C5_amended_witness :
    isValidObjectID "aaaaaaaaaaaaaaaaaaaaaaaa" = true ∧
    (Mongo.Delete customersKind "aaaaaaaaaaaaaaaaaaaaaaaa" ⟨⟨[], [], []⟩, 0, 0, []⟩
       = (Except.error (Err.db DbErr.notFound), stepOp ⟨⟨[], [], []⟩, 0, 0, []⟩) ∧
     (Mongo.Delete addressesKind "aaaaaaaaaaaaaaaaaaaaaaaa" ⟨⟨[], [], []⟩, 0, 0, []⟩).1
       = Except.ok () ∧
     (Mongo.Delete cardsKind "aaaaaaaaaaaaaaaaaaaaaaaa" ⟨⟨[], [], []⟩, 0, 0, []⟩).1
       = Except.ok ()) :=
  ⟨by decide,
   C5_amended_delete_missing "aaaaaaaaaaaaaaaaaaaaaaaa" ⟨⟨[], [], []⟩, 0, 0, []⟩
     (by decide) rfl (by decide)⟩

/-- C4: deleting a well-formed address (resp. card) id removes the
reference from every customer record holding it — a broadcast `$pull`
over all customers, a no-op on customers not holding it — and deletes
the standalone record; each customer's other reference list and scalar
fields, and the other standalone collection, are untouched. -/
theorem C4_delete_broadcasts_pull (id : String) (s : St)
    (hid : isValidObjectID id = true) (hnf : s.faults = []) :
    ((Mongo.Delete addressesKind id s).1 = Except.ok () ∧
     (Mongo.Delete addressesKind id s).2.db.customers
        = s.db.customers.map
            (fun c => { c with AddressIDs := c.AddressIDs.filter (fun x => x != canonOID id) }) ∧
     (Mongo.Delete addressesKind id s).2.db.addresses
        = s.db.addresses.eraseP (fun a => a.ID == canonOID id) ∧
     (Mongo.Delete addressesKind id s).2.db.cards = s.db.cards) ∧
    ((Mongo.Delete cardsKind id s).1 = Except.ok () ∧
     (Mongo.Delete cardsKind id s).2.db.customers
        = s.db.customers.map
            (fun c => { c with CardIDs := c.CardIDs.filter (fun x => x != canonOID id) }) ∧
     (Mongo.Delete cardsKind id s).2.db.cards
        = s.db.cards.eraseP (fun c => c.ID == canonOID id) ∧
     (Mongo.Delete cardsKind id s).2.db.addresses = s.db.addresses) := by
  have h1 : (addressesKind == customersKind) = false := by decide
  have h2 : (cardsKind == customersKind) = false := by decide
  have h3 : (addressesKind == addressesKind) = true := by decide
  have h4 : (cardsKind == addressesKind) = false := by decide
  have h5 : (cardsKind == cardsKind) = true := by decide
  refine ⟨⟨?_, ?_, ?_, ?_⟩, ⟨?_, ?_, ?_, ?_⟩⟩ <;>
    simp [Mongo.Delete, customersKind, addressesKind, cardsKind, hid,
      customersUpdateManyPull, deleteOneIn, pullAttr, faultNow, hnf, stepOp,
      setCustomers, setAddresses, setCards]

/-- C4 witness: two customers both referencing address `oidA`; deleting
that address pulls the reference from both and removes the record,
leaving card references and the cards collection untouched. -/
theorem C4_witness :
    isValidObjectID oidA = true ∧
    (((Mongo.Delete addressesKind oidA twoUserSt).1 = Except.ok () ∧
      (Mongo.Delete addressesKind oidA twoUserSt).2.db.customers
         = twoUserSt.db.customers.map
             (fun c => { c with AddressIDs := c.AddressIDs.filter (fun x => x != canonOID oidA) }) ∧
      (Mongo.Delete addressesKind oidA twoUserSt).2.db.addresses
         = twoUserSt.db.addresses.eraseP (fun a => a.ID == canonOID oidA) ∧
      (Mongo.Delete addressesKind oidA twoUserSt).2.db.cards = twoUserSt.db.cards) ∧
     ((Mongo.Delete cardsKind oidA twoUserSt).1 = Except.ok () ∧
      (Mongo.Delete cardsKind oidA twoUserSt).2.db.customers
         = twoUserSt.db.customers.map
             (fun c => { c with CardIDs := c.CardIDs.filter (fun x => x != canonOID oidA) }) ∧
      (Mongo.Delete cardsKind oidA twoUserSt).2.db.cards
         = twoUserSt.db.cards.eraseP (fun c => c.ID == canonOID oidA) ∧
      (Mongo.Delete cardsKind oidA twoUserSt).2.db.addresses = twoUserSt.db.addresses)) :=
  ⟨by decide, C4_delete_broadcasts_pull oidA twoUserSt (by decide) rfl⟩

/-- C10: creating a card (resp. address) against a well-formed user id
for which no customer record exists succeeds: the standalone record is
upserted with a fresh id, the `$addToSet` update matches no customer and
changes nothing, and no error is reported. -/
theorem C10_create_with_absent_user (ca : Card) (a : Address) (userid : String) (s : St)
    (hv : isValidObjectID userid = true) (hne : userid ≠ "")
    (habs : ∀ c ∈ s.db.customers, (c.ID == canonOID userid) = false)
    (hnf : s.faults = []) :
    ((Mongo.CreateCard ca userid s).1 = Except.ok () ∧
     (Mongo.CreateCard ca userid s).2.1 = { ca with ID := hex (genOID s.nextOID) } ∧
     (Mongo.CreateCard ca userid s).2.2.db.cards
        = upsertById MongoCard.ID { card := ca, ID := genOID s.nextOID } s.db.cards ∧
     (Mongo.CreateCard ca userid s).2.2.db.customers = s.db.customers ∧
     (Mongo.CreateCard ca userid s).2.2.db.addresses = s.db.addresses) ∧
    ((Mongo.CreateAddress a userid s).1 = Except.ok () ∧
     (Mongo.CreateAddress a userid s).2.1 = { a with ID := hex (genOID s.nextOID) } ∧
     (Mongo.CreateAddress a userid s).2.2.db.addresses
        = upsertById MongoAddress.ID { address := a, ID := genOID s.nextOID } s.db.addresses ∧
     (Mongo.CreateAddress a userid s).2.2.db.customers = s.db.customers ∧
     (Mongo.CreateAddress a userid s).2.2.db.cards = s.db.cards) := by
  have hupd := updateFirst_of_none (fun c => c.ID == canonOID userid)
    (addToSetAttr cardsKind (genOID s.nextOID)) s.db.customers habs
  have hupd2 := updateFirst_of_none (fun c => c.ID == canonOID userid)
    (addToSetAttr addressesKind (genOID s.nextOID)) s.db.customers habs
  refine ⟨?_, ?_⟩ <;>
    simp [Mongo.CreateCard, Mongo.CreateAddress, hv, hne, cardsReplaceOne,
      addressesReplaceOne, faultNow, hnf, stepOp, setCards, setAddresses,
      Mongo.appendAttributeId, objectIDFromHex, customersUpdateOneAddToSet,
      setCustomers, hupd, hupd2]

/-- C10 witness: empty store, concrete well-formed user id. -/
theorem C10_witness :
    isValidObjectID oidA = true ∧ oidA ≠ "" ∧
    (((Mongo.CreateCard cardX oidA emptySt).1 = Except.ok () ∧
      (Mongo.CreateCard cardX oidA emptySt).2.1 = { cardX with ID := hex (genOID emptySt.nextOID) } ∧
      (Mongo.CreateCard cardX oidA emptySt).2.2.db.cards
         = upsertById MongoCard.ID { card := cardX, ID := genOID emptySt.nextOID } emptySt.db.cards ∧
      (Mongo.CreateCard cardX oidA emptySt).2.2.db.customers = emptySt.db.customers ∧
      (Mongo.CreateCard cardX oidA emptySt).2.2.db.addresses = emptySt.db.addresses) ∧
     ((Mongo.CreateAddress addrA.address oidA emptySt).1 = Except.ok () ∧
      (Mongo.CreateAddress addrA.address oidA emptySt).2.1
         = { addrA.address with ID := hex (genOID emptySt.nextOID) } ∧
      (Mongo.CreateAddress addrA.address oidA emptySt).2.2.db.addresses
         = upsertById MongoAddress.ID { address := addrA.address, ID := genOID emptySt.nextOID }
             emptySt.db.addresses ∧
      (Mongo.CreateAddress addrA.address oidA emptySt).2.2.db.customers = emptySt.db.customers ∧
      (Mongo.CreateAddress addrA.address oidA emptySt).2.2.db.cards = emptySt.db.cards)) :=
  ⟨by decide, by decide,
   C10_create_with_absent_user cardX addrA.address oidA emptySt (by decide) (by decide)
     (by decide) rfl⟩

/-- C8: on a user whose address and card ids are all well-formed,
`GetUserAttributes` returns success under every fault schedule; when the
address batch fetch (the first operation) faults, the address list is
left unchanged, and when the card batch fetch (the second operation)
faults, the card list is left unchanged — a storage failure on one
attribute kind never fails the whole call. -/
theorem C8_fetch_fault_degrades_silently (u : User) (s : St)
    (hA : u.Addresses.all (fun a => isValidObjectID a.ID) = true)
    (hC : u.Cards.all (fun c => isValidObjectID c.ID) = true) :
    (Mongo.GetUserAttributes u s).1 = Except.ok () ∧
    (faultNow s = true → (Mongo.GetUserAttributes u s).2.1.Addresses = u.Addresses) ∧
    (faultNow (stepOp s) = true → (Mongo.GetUserAttributes u s).2.1.Cards = u.Cards) := by
  refine ⟨?_, ?_, ?_⟩
  · cases h1 : faultNow s <;> cases h2 : faultNow (stepOp s) <;>
      simp [Mongo.GetUserAttributes, hA, hC, addressesFindIn, cardsFindIn, h1, h2,
        Mongo.resolveAddrList, Mongo.resolveCardList]
  · intro h1
    cases h2 : faultNow (stepOp s) <;>
      simp [Mongo.GetUserAttributes, hA, hC, addressesFindIn, cardsFindIn, h1, h2,
        Mongo.resolveAddrList, Mongo.resolveCardList]
  · intro h2
    cases h1 : faultNow s <;>
      simp [Mongo.GetUserAttributes, hA, hC, addressesFindIn, cardsFindIn, h1, h2,
        Mongo.resolveAddrList, Mongo.resolveCardList]

/-- C8 witness: both batch fetches fault; the call still succeeds and
both lists survive unchanged. -/
theorem C8_witness :
    resolveUser.Addresses.all (fun a => isValidObjectID a.ID) = true ∧
    resolveUser.Cards.all (fun c => isValidObjectID c.ID) = true ∧
    ((Mongo.GetUserAttributes resolveUser bothFaultSt).1 = Except.ok () ∧
     (faultNow bothFaultSt = true →
       (Mongo.GetUserAttributes resolveUser bothFaultSt).2.1.Addresses = resolveUser.Addresses) ∧
     (faultNow (stepOp bothFaultSt) = true →
       (Mongo.GetUserAttributes resolveUser bothFaultSt).2.1.Cards = resolveUser.Cards)) :=
  ⟨by decide, by decide,
   C8_fetch_fault_degrades_silently resolveUser bothFaultSt (by decide) (by decide)⟩

/-- C7: on a user whose address and card ids are all well-formed, with a
fault-free backend, `GetUserAttributes` succeeds and replaces each list
with exactly the full records (ids filled in) of the requested ids that
currently exist in the store; requested ids with no record contribute
nothing and raise no error. -/
theorem C7_resolve_replaces_with_existing (u : User) (s : St)
    (hA : u.Addresses.all (fun a => isValidObjectID a.ID) = true)
    (hC : u.Cards.all (fun c => isValidObjectID c.ID) = true)
    (hnf : s.faults = []) :
    (Mongo.GetUserAttributes u s).1 = Except.ok () ∧
    (Mongo.GetUserAttributes u s).2.1.Addresses = resolvedAddrs u s.db ∧
    (Mongo.GetUserAttributes u s).2.1.Cards = resolvedCards u s.db := by
  have h1 : faultNow s = false := faultNow_of_nil hnf
  have h2 : faultNow { s with opIdx := s.opIdx + 1 } = false := faultNow_of_nil (by simp [hnf])
  simp [Mongo.GetUserAttributes, hA, hC, addressesFindIn, cardsFindIn, h1, h2, stepOp,
    Mongo.resolveAddrList, Mongo.resolveCardList, resolvedAddrs, resolvedCards]

/-- C7 witness: one existing and one valid-but-absent address id; only
the existing record comes back, with no error. -/
theorem C7_witness :
    resolveUser.Addresses.all (fun a => isValidObjectID a.ID) = true ∧
    resolveUser.Cards.all (fun c => isValidObjectID c.ID) = true ∧
    ((Mongo.GetUserAttributes resolveUser twoUserSt).1 = Except.ok () ∧
     (Mongo.GetUserAttributes resolveUser twoUserSt).2.1.Addresses
        = resolvedAddrs resolveUser twoUserSt.db ∧
     (Mongo.GetUserAttributes resolveUser twoUserSt).2.1.Cards
        = resolvedCards resolveUser twoUserSt.db) :=
  ⟨by decide, by decide,
   C7_resolve_replaces_with_existing resolveUser twoUserSt (by decide) (by decide) rfl⟩

/-- C6 counterexample: a user with one well-formed address id and one
malformed card id.  The call aborts with `InvalidFormat`, but the
address list has already been replaced (here: emptied, since the store
holds no matching record) — the lists are not left as they were. -/
theorem C6_counterexample :
    (Mongo.GetUserAttributes badCardUser emptySt).1 = Except.error Err.invalidHex ∧
    (Mongo.GetUserAttributes badCardUser emptySt).2.1.Addresses = [] ∧
    badCardUser.Addresses ≠ [] := by
  refine ⟨rfl, rfl, by decide⟩

/-- C6 amended: a malformed id in the address list aborts the call with
`InvalidFormat` before any resolution, leaving the user and the store
untouched; a malformed id in the card list (with all address ids
well-formed) also aborts with `InvalidFormat` and leaves the card list
unchanged, but only after the address list has already been resolved in
place. -/
theorem C6_amended_invalid_id_abort (u : User) (s : St) :
    (u.Addresses.all (fun a => isValidObjectID a.ID) = false →
      Mongo.GetUserAttributes u s = (Except.error Err.invalidHex, u, s)) ∧
    (u.Addresses.all (fun a => isValidObjectID a.ID) = true →
     u.Cards.all (fun c => isValidObjectID c.ID) = false →
     s.faults = [] →
      Mongo.GetUserAttributes u s
        = (Except.error Err.invalidHex,
           { u with Addresses := resolvedAddrs u s.db },
           stepOp s)) := by
  constructor
  · intro h
    simp [Mongo.GetUserAttributes, h]
  · intro hv h hnf
    have h1 : faultNow s = false := faultNow_of_nil hnf
    simp [Mongo.GetUserAttributes, hv, h, addressesFindIn, h1, stepOp,
      Mongo.resolveAddrList, resolvedAddrs]

/-- C6 witness: both abort paths at concrete inputs. -/
theorem C6_amended_witness :
    (badAddrUser.Addresses.all (fun a => isValidObjectID a.ID) = false ∧
     Mongo.GetUserAttributes badAddrUser emptySt
       = (Except.error Err.invalidHex, badAddrUser, emptySt)) ∧
    (badCardUser.Addresses.all (fun a => isValidObjectID a.ID) = true ∧
     badCardUser.Cards.all (fun c => isValidObjectID c.ID) = false ∧
     Mongo.GetUserAttributes badCardUser twoUserSt
       = (Except.error Err.invalidHex,
          { badCardUser with Addresses := resolvedAddrs badCardUser twoUserSt.db },
          stepOp twoUserSt)) :=
  ⟨⟨by decide, (C6_amended_invalid_id_abort badAddrUser emptySt).1 (by decide)⟩,
   ⟨by decide, by decide,
    (C6_amended_invalid_id_abort badCardUser twoUserSt).2 (by decide) (by decide) rfl⟩⟩

theorem faultNow_setAddresses (s : St) (l : List MongoAddress) :
    faultNow (setAddresses s l) = faultNow s := rfl

theorem faultNow_setCards (s : St) (l : List MongoCard) :
    faultNow (setCards s l) = faultNow s := rfl

theorem faultNow_setCustomers (s : St) (l : List MongoUser) :
    faultNow (setCustomers s l) = faultNow s := rfl

theorem stepOp_db (s : St) : (stepOp s).db = s.db := rfl

theorem setAddresses_db_addresses (s : St) (l : List MongoAddress) :
    (setAddresses s l).db.addresses = l := rfl

theorem setAddresses_db_cards (s : St) (l : List MongoAddress) :
    (setAddresses s l).db.cards = s.db.cards := rfl

theorem setAddresses_db_customers (s : St) (l : List MongoAddress) :
    (setAddresses s l).db.customers = s.db.customers := rfl

theorem setCards_db_cards (s : St) (l : List MongoCard) :
    (setCards s l).db.cards = l := rfl

theorem setCards_db_addresses (s : St) (l : List MongoCard) :
    (setCards s l).db.addresses = s.db.addresses := rfl

theorem setCards_db_customers (s : St) (l : List MongoCard) :
    (setCards s l).db.customers = s.db.customers := rfl

theorem setCustomers_db_customers (s : St) (l : List MongoUser) :
    (setCustomers s l).db.customers = l := rfl

theorem setCustomers_db_addresses (s : St) (l : List MongoUser) :
    (setCustomers s l).db.addresses = s.db.addresses := rfl

theorem setCustomers_db_cards (s : St) (l : List MongoUser) :
    (setCustomers s l).db.cards = s.db.cards := rfl

/-- C2 counterexample: one embedded card whose creation faults while the
customer upsert succeeds.  `CreateUser` returns the aggregated error and
the customer record exists under its generated identifier, but the
caller's user still carries an empty identifier — the generated user id
is not handed back on this path (`*u = mu.User` runs only on full
success). -/
theorem C2_counterexample :
    (Mongo.CreateUser userU cardFaultSt).1
       = Except.error (Err.attributeErrors (some (DbErr.storage 0)) none) ∧
    (Mongo.CreateUser userU cardFaultSt).2.1.UserID = "" ∧
    (Mongo.CreateUser userU cardFaultSt).2.2.db.customers.map MongoUser.ID = [genOID 0] ∧
    genOID 0 ≠ "" := by
  refine ⟨rfl, rfl, rfl, by decide⟩

/-- C2 amended: when at least one sub-entity creation fails but the
customer upsert succeeds, `CreateUser` returns the aggregated
attribute-errors value, and the caller's user retains the in-place
updated embedded lists (successfully created entries carry their new
identifiers) — but the generated user identifier is not written back to
the caller: the user-id field keeps its input value. -/
theorem C2_amended_partial_failure (s : St) (u : User) (rc ra : Except DbErr Unit)
    (cids aids : List ObjectID) (cards2 : List Card) (addrs2 : List Address) (s1 s2 s3 : St)
    (hc : Mongo.createCards u.Cards { s with nextOID := s.nextOID + 1 }
            = (rc, cids, cards2, s1))
    (ha : Mongo.createAddresses u.Addresses s1 = (ra, aids, addrs2, s2))
    (hfail : ¬(rc = Except.ok () ∧ ra = Except.ok ()))
    (hup : customersReplaceOne (Mongo.assembleMU u (genOID s.nextOID) cards2 addrs2 aids cids) s2
            = (Except.ok (), s3)) :
    Mongo.CreateUser u s
      = (Except.error (Err.attributeErrors (Mongo.errOpt rc) (Mongo.errOpt ra)),
         { u with Cards := cards2, Addresses := addrs2 }, s3) := by
  simp only [Mongo.assembleMU] at hup
  cases rc with
  | ok v =>
    cases ra with
    | ok w => exact absurd ⟨rfl, rfl⟩ hfail
    | error e =>
      simp only [Mongo.CreateUser, hc, ha, Mongo.assembleMU, Mongo.errOpt, hup]
  | error e =>
    cases ra with
    | ok w =>
      simp only [Mongo.CreateUser, hc, ha, Mongo.assembleMU, Mongo.errOpt, hup]
    | error f =>
      simp only [Mongo.CreateUser, hc, ha, Mongo.assembleMU, Mongo.errOpt, hup]

/-- C2 witness: the concrete partial-failure run of the counterexample,
driven through the general theorem. -/
theorem C2_amended_witness :
    Mongo.createCards userU.Cards { cardFaultSt with nextOID := cardFaultSt.nextOID + 1 }
       = (Except.error (DbErr.storage 0), [], [cardX], s1W) ∧
    Mongo.createAddresses userU.Addresses s1W = (Except.ok (), [], [], s1W) ∧
    ¬((Except.error (DbErr.storage 0) : Except DbErr Unit) = Except.ok () ∧
      (Except.ok () : Except DbErr Unit) = Except.ok ()) ∧
    customersReplaceOne
        (Mongo.assembleMU userU (genOID cardFaultSt.nextOID) [cardX] [] [] []) s1W
       = (Except.ok (), s3W) ∧
    Mongo.CreateUser userU cardFaultSt
       = (Except.error (Err.attributeErrors (some (DbErr.storage 0)) none),
          { userU with Cards := [cardX], Addresses := [] }, s3W) :=
  ⟨by decide, by decide, by decide, by decide,
   C2_amended_partial_failure cardFaultSt userU (Except.error (DbErr.storage 0))
     (Except.ok ()) [] [] [cardX] [] s1W s1W s3W (by decide) (by decide) (by decide) (by decide)⟩

/-- C1: when every embedded card and address was created successfully
but the customer upsert fails, `CreateUser` returns exactly the upsert
error (cleanup outcomes never replace it: the conclusion holds whatever
the fault schedule says about the two compensating deletes), after
issuing best-effort `DeleteMany` calls; when those two deletes do not
fault, every created sub-entity record is removed from its collection
(and only records with the created identifiers are removed). -/
theorem C1_compensating_cleanup (s : St) (u : User) (cids aids : List ObjectID)
    (cards2 : List Card) (addrs2 : List Address) (s1 s2 s3 : St) (e : DbErr)
    (hc : Mongo.createCards u.Cards { s with nextOID := s.nextOID + 1 }
            = (Except.ok (), cids, cards2, s1))
    (ha : Mongo.createAddresses u.Addresses s1 = (Except.ok (), aids, addrs2, s2))
    (hup : customersReplaceOne (Mongo.assembleMU u (genOID s.nextOID) cards2 addrs2 aids cids) s2
            = (Except.error e, s3)) :
    Mongo.CreateUser u s
      = (Except.error (Err.db e), { u with Cards := cards2, Addresses := addrs2 },
         Mongo.cleanAttributes (Mongo.assembleMU u (genOID s.nextOID) cards2 addrs2 aids cids) s3) ∧
    (faultNow s3 = false → faultNow (stepOp s3) = false →
      (Mongo.cleanAttributes (Mongo.assembleMU u (genOID s.nextOID) cards2 addrs2 aids cids)
          s3).db.addresses
         = s3.db.addresses.filter (fun a => !aids.contains a.ID) ∧
      (Mongo.cleanAttributes (Mongo.assembleMU u (genOID s.nextOID) cards2 addrs2 aids cids)
          s3).db.cards
         = s3.db.cards.filter (fun c => !cids.contains c.ID)) := by
  constructor
  · simp only [Mongo.assembleMU] at hup
    simp only [Mongo.CreateUser, hc, ha, Mongo.assembleMU, hup]
  · intro h1 h2
    constructor
    · simp only [Mongo.cleanAttributes, addressesDeleteManyIn, cardsDeleteManyIn,
        Mongo.assembleMU, h1, faultNow_setAddresses, h2, if_false, Bool.false_eq_true,
        setCards_db_addresses, stepOp_db, setAddresses_db_addresses]
    · simp only [Mongo.cleanAttributes, addressesDeleteManyIn, cardsDeleteManyIn,
        Mongo.assembleMU, h1, faultNow_setAddresses, h2, if_false, Bool.false_eq_true,
        setCards_db_cards, stepOp_db, setAddresses_db_cards]

/-- C1 witness: one card created successfully, upsert faults, both
compensating deletes run fault-free and remove the created card. -/
theorem C1_witness :
    Mongo.createCards userU.Cards { upsertFaultSt with nextOID := upsertFaultSt.nextOID + 1 }
       = (Except.ok (), [genOID 1], [cardXid], s1C1) ∧
    Mongo.createAddresses userU.Addresses s1C1 = (Except.ok (), [], [], s1C1) ∧
    customersReplaceOne
        (Mongo.assembleMU userU (genOID upsertFaultSt.nextOID) [cardXid] [] [] [genOID 1]) s1C1
       = (Except.error (DbErr.storage 1), s3C1) ∧
    (Mongo.CreateUser userU upsertFaultSt
       = (Except.error (Err.db (DbErr.storage 1)), { userU with Cards := [cardXid], Addresses := [] },
          Mongo.cleanAttributes
            (Mongo.assembleMU userU (genOID upsertFaultSt.nextOID) [cardXid] [] [] [genOID 1]) s3C1) ∧
     (faultNow s3C1 = false → faultNow (stepOp s3C1) = false →
       (Mongo.cleanAttributes
           (Mongo.assembleMU userU (genOID upsertFaultSt.nextOID) [cardXid] [] [] [genOID 1])
           s3C1).db.addresses
          = s3C1.db.addresses.filter (fun a => !([] : List ObjectID).contains a.ID) ∧
       (Mongo.cleanAttributes
           (Mongo.assembleMU userU (genOID upsertFaultSt.nextOID) [cardXid] [] [] [genOID 1])
           s3C1).db.cards
          = s3C1.db.cards.filter (fun c => !([genOID 1]).contains c.ID))) :=
  ⟨by decide, by decide, by decide,
   C1_compensating_cleanup upsertFaultSt userU [genOID 1] [] [cardXid] [] s1C1 s1C1 s3C1
     (DbErr.storage 1) (by decide) (by decide) (by decide)⟩

theorem stepOp_faults (s : St) : (stepOp s).faults = s.faults := rfl

theorem setAddresses_faults (s : St) (l : List MongoAddress) :
    (setAddresses s l).faults = s.faults := rfl

theorem setCards_faults (s : St) (l : List MongoCard) :
    (setCards s l).faults = s.faults := rfl

theorem setCustomers_faults (s : St) (l : List MongoUser) :
    (setCustomers s l).faults = s.faults := rfl

theorem getAddress_notFound {t : St} {aid : ObjectID}
    (hv : isValidObjectID aid = true) (hfix : canonOID aid = aid)
    (hf : faultNow t = false)
    (hfind : t.db.addresses.find? (fun a => a.ID == aid) = none) :
    (Mongo.GetAddress (hex aid) t).1 = Except.error (Err.db DbErr.notFound) := by
  simp [Mongo.GetAddress, hex, hv, hfix, addressesFindOneById, hf, hfind]

theorem getCard_notFound {t : St} {cid : ObjectID}
    (hv : isValidObjectID cid = true) (hfix : canonOID cid = cid)
    (hf : faultNow t = false)
    (hfind : t.db.cards.find? (fun c => c.ID == cid) = none) :
    (Mongo.GetCard (hex cid) t).1 = Except.error (Err.db DbErr.notFound) := by
  simp [Mongo.GetCard, hex, hv, hfix, cardsFindOneById, hf, hfind]

/-- C3: deleting entity kind `customers` first fetches the user; if the
fetch finds no record the whole operation fails with `NotFound` and the
store is untouched (only the operation counter advanced); otherwise
every linked address and card record is deleted, then the customer
record itself, and a subsequent `GetAddress`/`GetCard` on each linked id
returns `NotFound`. -/
theorem C3_delete_customer_cascade (id : String) (s : St)
    (hid : isValidObjectID id = true) (hwf : WFdb s.db = true) (hnf : s.faults = []) :
    (s.db.customers.find? (fun c => c.ID == canonOID id) = none →
      Mongo.Delete customersKind id s = (Except.error (Err.db DbErr.notFound), stepOp s)) ∧
    (∀ mu, s.db.customers.find? (fun c => c.ID == canonOID id) = some mu →
      (Mongo.Delete customersKind id s).1 = Except.ok () ∧
      (Mongo.Delete customersKind id s).2.db.addresses
         = s.db.addresses.filter (fun a => !mu.AddressIDs.contains a.ID) ∧
      (Mongo.Delete customersKind id s).2.db.cards
         = s.db.cards.filter (fun c => !mu.CardIDs.contains c.ID) ∧
      (Mongo.Delete customersKind id s).2.db.customers
         = s.db.customers.eraseP (fun c => c.ID == canonOID id) ∧
      (∀ aid ∈ mu.AddressIDs,
         (Mongo.GetAddress (hex aid) (Mongo.Delete customersKind id s).2).1
            = Except.error (Err.db DbErr.notFound)) ∧
      (∀ cid ∈ mu.CardIDs,
         (Mongo.GetCard (hex cid) (Mongo.Delete customersKind id s).2).1
            = Except.error (Err.db DbErr.notFound))) := by
  have hparse : objectIDFromHex id = some (canonOID id) := by simp [objectIDFromHex, hid]
  have hf0 : faultNow s = false := faultNow_of_nil hnf
  constructor
  · intro h
    simp [Mongo.Delete, customersKind, hid, Mongo.GetUser, hparse, customersFindOneById,
      hf0, h]
  · intro mu hfind
    have hmem : mu ∈ s.db.customers := List.mem_of_find?_eq_some hfind
    obtain ⟨hidc, haidsAll, hcidsAll, hAe, hCe⟩ := WF_customer hwf hmem
    have hget : Mongo.GetUser id s = (Except.ok mu.addUserIDs.user, stepOp s) := by
      simp [Mongo.GetUser, hparse, customersFindOneById, hf0, hfind]
    have e1 : mu.addUserIDs.user.Addresses = mu.AddressIDs.map placeholderAddress := by
      simp [MongoUser.addUserIDs, hAe]
    have e2 : mu.addUserIDs.user.Cards = mu.CardIDs.map placeholderCard := by
      simp [MongoUser.addUserIDs, hCe]
    have haids : mu.addUserIDs.user.Addresses.filterMap (fun a => objectIDFromHex a.ID)
        = mu.AddressIDs := by
      rw [e1]
      exact filterMap_placeholderAddress _ haidsAll
    have hcids : mu.addUserIDs.user.Cards.filterMap (fun c => objectIDFromHex c.ID)
        = mu.CardIDs := by
      rw [e2]
      exact filterMap_placeholderCard _ hcidsAll
    have hA2 : (Mongo.Delete customersKind id s).2.db.addresses
        = s.db.addresses.filter (fun a => !mu.AddressIDs.contains a.ID) := by
      simp [Mongo.Delete, customersKind, hid, hget, haids, hcids, addressesDeleteManyIn,
        cardsDeleteManyIn, deleteOneIn, faultNow_of_nil, stepOp_faults, setAddresses_faults,
        setCards_faults, setCustomers_faults, hnf, stepOp_db, setAddresses_db_addresses,
        setAddresses_db_cards, setAddresses_db_customers, setCards_db_addresses,
        setCards_db_cards, setCards_db_customers, setCustomers_db_addresses,
        setCustomers_db_cards, setCustomers_db_customers]
    have hC2 : (Mongo.Delete customersKind id s).2.db.cards
        = s.db.cards.filter (fun c => !mu.CardIDs.contains c.ID) := by
      simp [Mongo.Delete, customersKind, hid, hget, haids, hcids, addressesDeleteManyIn,
        cardsDeleteManyIn, deleteOneIn, faultNow_of_nil, stepOp_faults, setAddresses_faults,
        setCards_faults, setCustomers_faults, hnf, stepOp_db, setAddresses_db_addresses,
        setAddresses_db_cards, setAddresses_db_customers, setCards_db_addresses,
        setCards_db_cards, setCards_db_customers, setCustomers_db_addresses,
        setCustomers_db_cards, setCustomers_db_customers]
    have hFaults : (Mongo.Delete customersKind id s).2.faults = [] := by
      simp [Mongo.Delete, customersKind, hid, hget, haids, hcids, addressesDeleteManyIn,
        cardsDeleteManyIn, deleteOneIn, faultNow_of_nil, stepOp_faults, setAddresses_faults,
        setCards_faults, setCustomers_faults, hnf]
    refine ⟨?_, hA2, hC2, ?_, ?_, ?_⟩
    · simp [Mongo.Delete, customersKind, hid, hget, haids, hcids, addressesDeleteManyIn,
        cardsDeleteManyIn, deleteOneIn, faultNow_of_nil, stepOp_faults, setAddresses_faults,
        setCards_faults, setCustomers_faults, hnf]
    · simp [Mongo.Delete, customersKind, hid, hget, haids, hcids, addressesDeleteManyIn,
        cardsDeleteManyIn, deleteOneIn, faultNow_of_nil, stepOp_faults, setAddresses_faults,
        setCards_faults, setCustomers_faults, hnf, stepOp_db, setAddresses_db_customers,
        setCards_db_customers, setCustomers_db_customers]
    · intro aid hmemA
      have hcanon : isCanonOID aid = true := List.all_eq_true.mp haidsAll aid hmemA
      have hcont : mu.AddressIDs.contains aid = true := by simpa using hmemA
      refine getAddress_notFound (isCanonOID_valid hcanon) (isCanonOID_fix hcanon)
        (faultNow_of_nil hFaults) ?_
      rw [hA2]
      exact find?_filter_deleted MongoAddress.ID mu.AddressIDs aid hcont s.db.addresses
    · intro cid hmemC
      have hcanon : isCanonOID cid = true := List.all_eq_true.mp hcidsAll cid hmemC
      have hcont : mu.CardIDs.contains cid = true := by simpa using hmemC
      refine getCard_notFound (isCanonOID_valid hcanon) (isCanonOID_fix hcanon)
        (faultNow_of_nil hFaults) ?_
      rw [hC2]
      exact find?_filter_deleted MongoCard.ID mu.CardIDs cid hcont s.db.cards

/-- C3 witness: concrete store with a customer linking one address and
one card; all hypotheses discharged by evaluation. -/
theorem C3_witness :
    isValidObjectID oidC1 = true ∧ WFdb twoUserSt.db = true ∧
    ((twoUserSt.db.customers.find? (fun c => c.ID == canonOID oidC1) = none →
       Mongo.Delete customersKind oidC1 twoUserSt
         = (Except.error (Err.db DbErr.notFound), stepOp twoUserSt)) ∧
     (∀ mu, twoUserSt.db.customers.find? (fun c => c.ID == canonOID oidC1) = some mu →
       (Mongo.Delete customersKind oidC1 twoUserSt).1 = Except.ok () ∧
       (Mongo.Delete customersKind oidC1 twoUserSt).2.db.addresses
          = twoUserSt.db.addresses.filter (fun a => !mu.AddressIDs.contains a.ID) ∧
       (Mongo.Delete customersKind oidC1 twoUserSt).2.db.cards
          = twoUserSt.db.cards.filter (fun c => !mu.CardIDs.contains c.ID) ∧
       (Mongo.Delete customersKind oidC1 twoUserSt).2.db.customers
          = twoUserSt.db.customers.eraseP (fun c => c.ID == canonOID oidC1) ∧
       (∀ aid ∈ mu.AddressIDs,
          (Mongo.GetAddress (hex aid) (Mongo.Delete customersKind oidC1 twoUserSt).2).1
             = Except.error (Err.db DbErr.notFound)) ∧
       (∀ cid ∈ mu.CardIDs,
          (Mongo.GetCard (hex cid) (Mongo.Delete customersKind oidC1 twoUserSt).2).1
             = Except.error (Err.db DbErr.notFound)))) :=
  ⟨by decide, by decide,
   C3_delete_customer_cascade oidC1 twoUserSt (by decide) (by decide) rfl⟩
